import Mathlib

/-!
Verification development for the deepdive calibration pipeline.

The definitions below are a shallow embedding of the two source files:
  ros/src/deepdive_calibration.cc  (calibration node)
  src/deepdive_data_light.c        (raw light event dispatch)

Machine floating point is modelled over the exact rationals; external
library calls (the ceres nonlinear solver, the OpenCV PnP solver, and
transcendental functions such as cos and tan) are modelled as explicit
functional parameters since their code is outside this repository.
-/

namespace Deepdive

/-! Data model, following the message and shared-header layout used by
deepdive_calibration.cc.  The shared header deepdive.hh is not part of the
repository snapshot; the record shapes below are reconstructed from the
fields the .cc file reads and writes (vTl, ready, params, sensors). -/

/-- One pulse of a light observation: sensor id, angle, duration. -/
structure Pulse where
  sensor : ℕ
  angle : ℚ
  duration : ℚ
deriving DecidableEq, Repr

/-- A decoded light message: tracker serial (header.frame_id), lighthouse
serial, axis and the pulse list. -/
structure LightMsg where
  tracker : String
  lighthouse : String
  axis : ℕ
  pulses : List Pulse
deriving DecidableEq, Repr

/-- One entry of the measurement store: arrival time plus the light data. -/
structure Meas where
  time : ℚ
  light : LightMsg
deriving DecidableEq, Repr

/-- Per-axis lighthouse correction parameters (PARAM_PHASE, PARAM_TILT,
PARAM_CURVE, PARAM_GIB_PHASE, PARAM_GIB_MAG of deepdive.hh). -/
structure CorrParams where
  phase : ℚ
  tilt : ℚ
  curve : ℚ
  gibphase : ℚ
  gibmag : ℚ
deriving DecidableEq, Repr

/-- Lighthouse record: 6-parameter transform into the vive frame
(3 translation + 3 axis-angle), readiness flag and correction parameters. -/
structure Lighthouse where
  vTl : Fin 6 → ℚ
  ready : Bool
  params : Fin 2 → CorrParams

/-- Tracker record (only the fields the claims touch). -/
structure Tracker where
  ready : Bool
deriving DecidableEq, Repr

/-- Startup configuration knobs used by the embedded callbacks. -/
structure Config where
  threshCount : ℕ
  threshAngle : ℚ
  threshDuration : ℚ
  res : ℚ
  correct : Bool

/-- The node state: measurement store, lighthouse map (first entry is the
master), tracker map and the recording flag. -/
structure CalState where
  measurements : List Meas
  lighthouses : List (String × Lighthouse)
  trackers : List (String × Tracker)
  recording : Bool

/-! Quaternions over the rationals, mirroring the ceres rotation helpers
used by TransformCost (deepdive_calibration.cc lines 98-122).  The
conversions between axis-angle vectors and quaternions are transcendental
and live in ceres, outside the repository; the residual composition itself
is pure quaternion algebra and is embedded exactly. -/

/-- Quaternion with scalar part w, as in the ceres convention. -/
@[ext]
structure Quat where
  w : ℚ
  x : ℚ
  y : ℚ
  z : ℚ
deriving DecidableEq, Repr

/-- Hamilton product, the formula of ceres QuaternionProduct. -/
def qmul (a b : Quat) : Quat :=
  ⟨a.w * b.w - a.x * b.x - a.y * b.y - a.z * b.z,
   a.w * b.x + a.x * b.w + a.y * b.z - a.z * b.y,
   a.w * b.y - a.x * b.z + a.y * b.w + a.z * b.x,
   a.w * b.z + a.x * b.y - a.y * b.x + a.z * b.w⟩

/-- Conjugate: negate the vector components, as lines 112-114 do. -/
def qconj (a : Quat) : Quat := ⟨a.w, -a.x, -a.y, -a.z⟩

/-- Component-wise negation (the other unit quaternion for a rotation). -/
def qneg (a : Quat) : Quat := ⟨-a.w, -a.x, -a.y, -a.z⟩

/-- Squared quaternion norm. -/
def qnormSq (a : Quat) : ℚ := a.w * a.w + a.x * a.x + a.y * a.y + a.z * a.z

/-- Identity quaternion, the image of the zero axis-angle vector. -/
def qone : Quat := ⟨1, 0, 0, 0⟩

/-- Rotational part of TransformCost at the quaternion level
(lines 107-115): mRt_inv := conj(mRs * sRt); q := mRt * mRt_inv.
The residual written into residual[3..5] is the axis-angle image of this
quaternion. -/
def transformCostRot (mRs mRt sRt : Quat) : Quat :=
  qmul mRt (qconj (qmul mRs sRt))

/-- Translational part of TransformCost (lines 118-119). -/
def transformCostTrans (mTs mTt sTt : Fin 3 → ℚ) : Fin 3 → ℚ :=
  fun i => mTt i - (mTs i + sTt i)

/-- Modelled from the spec: the rotational composition the spec sentence
states, namely slaveToMaster rotation composed with masterPose rotation
composed with the inverse of the slavePose rotation. -/
def specRotQuat (mRs mRt sRt : Quat) : Quat :=
  qmul mRs (qmul mRt (qconj sRt))

/-- Concrete rational unit quaternion used as a counterexample input. -/
def qEx : Quat := ⟨3/5, 4/5, 0, 0⟩

/-- C3 counterexample: with mTt and sTt the identity rotation and mTs the
unit quaternion (3/5, 4/5, 0, 0), the quaternion the code converts to an
axis-angle residual is the conjugate of the one the claim prescribes; the
two are unit quaternions that are neither equal nor opposite, so they are
different rotations and their axis-angle images differ. -/
theorem c3_counterexample :
    transformCostRot qEx qone qone ≠ specRotQuat qEx qone qone ∧
    transformCostRot qEx qone qone ≠ qneg (specRotQuat qEx qone qone) ∧
    qnormSq qEx = 1 ∧ qnormSq (transformCostRot qEx qone qone) = 1 ∧
    qnormSq (specRotQuat qEx qone qone) = 1 := by
  refine ⟨?_, ?_, ?_, ?_, ?_⟩ <;>
    simp [transformCostRot, specRotQuat, qmul, qconj, qneg, qnormSq, qEx,
      qone, Quat.ext_iff] <;> norm_num

/-- C3 amended: the rotational residual is the axis-angle representation of
mTt_rotation composed with the inverse of sTt_rotation composed with the
inverse of mTs_rotation (equivalently mTt_rotation composed with the
inverse of mTs_rotation * sTt_rotation); the translational residual is
component-wise mTt - (mTs + sTt) as claimed. -/
theorem c3_transform_cost_amended (mRs mRt sRt : Quat)
    (mTs mTt sTt : Fin 3 → ℚ) (i : Fin 3) :
    transformCostRot mRs mRt sRt = qmul mRt (qmul (qconj sRt) (qconj mRs)) ∧
    transformCostTrans mTs mTt sTt i = mTt i - (mTs i + sTt i) := by
  constructor
  · ext <;> simp [transformCostRot, qmul, qconj] <;> ring
  · rfl

/-! Ingestion filter (LightCallback, deepdive_calibration.cc lines 401-427).
The reverse-iteration erase loop removes exactly the pulses matching the
rejection predicate while preserving the order of the survivors, i.e. it
performs a filter with the kept predicate. -/

/-- Rejection predicate of the erase loop (lines 417-418): angle strictly
above threshAngle / 57.2958, or duration strictly below
threshDuration / 1e6. -/
def rejectPulse (cfg : Config) (p : Pulse) : Bool :=
  decide (cfg.threshAngle / (572958/10000 : ℚ) < p.angle) ||
  decide (p.duration < cfg.threshDuration / 1000000)

/-- A pulse survives the filter iff it is not rejected. -/
def keepPulse (cfg : Config) (p : Pulse) : Bool := !(rejectPulse cfg p)

/-- Tracker lookup plus readiness, as the guard of LightCallback reads it. -/
def trackerReady (st : CalState) (s : String) : Bool :=
  match st.trackers.lookup s with
  | some t => t.ready
  | none => false

/-- Lighthouse lookup plus readiness, as the guard of LightCallback reads it. -/
def lighthouseReady (st : CalState) (s : String) : Bool :=
  match st.lighthouses.lookup s with
  | some l => l.ready
  | none => false

/-- LightCallback: return unchanged unless recording with a known ready
tracker and lighthouse; filter the pulses; drop the whole observation when
fewer than threshCount pulses survive; otherwise append the filtered
observation to the measurement store keyed by the arrival time. -/
def lightCallback (cfg : Config) (now : ℚ) (msg : LightMsg)
    (st : CalState) : CalState :=
  if !(st.recording && trackerReady st msg.tracker &&
       lighthouseReady st msg.lighthouse) then st
  else
    let data := msg.pulses.filter (keepPulse cfg)
    if data.length < cfg.threshCount then st
    else { st with
      measurements := st.measurements ++ [⟨now, { msg with pulses := data }⟩] }

/-! Per-axis angle correction (Solve, lines 225-234).  The loop body for
axis a subtracts terms that read angles[1-a] from the mutable array, so the
a = 1 pass sees the already-corrected a = 0 value.  The library cosine is
passed in as a function parameter c. -/

/-- One pass of the correction loop for axis a, updating the angle array in
place exactly as lines 228-232 do. -/
def axisCorrect (c : ℚ → ℚ) (p : Fin 2 → CorrParams) (ang : Fin 2 → ℚ)
    (a : Fin 2) : Fin 2 → ℚ :=
  Function.update ang a
    (ang a - (p a).phase - (p a).tilt * ang (1 - a)
      - (p a).curve * (ang (1 - a) * ang (1 - a))
      - (p a).gibmag * c (ang (1 - a) + (p a).gibphase))

/-- The correction loop: axis 0 first, then axis 1, on the shared array. -/
def applyCorrections (c : ℚ → ℚ) (p : Fin 2 → CorrParams)
    (ang : Fin 2 → ℚ) : Fin 2 → ℚ :=
  List.foldl (axisCorrect c p) ang [0, 1]

/-- Modelled from the spec: each axis corrected only from the OTHER axis's
bundled mean angle, i.e. both cross-coupling terms read the uncorrected
mean of the other axis. -/
def specCorrected (c : ℚ → ℚ) (p : Fin 2 → CorrParams)
    (m : Fin 2 → ℚ) : Fin 2 → ℚ :=
  fun a => m a - (p a).phase - (p a).tilt * m (1 - a)
    - (p a).curve * (m (1 - a) * m (1 - a))
    - (p a).gibmag * c (m (1 - a) + (p a).gibphase)

/-- Placeholder cosine for concrete counterexample inputs; the chosen
parameters have gibmag = 0 on both axes, so the corrected values do not
depend on this function at all. -/
def cEx : ℚ → ℚ := fun _ => 0

/-- Counterexample correction parameters: axis 0 has phase 1, axis 1 has
tilt 1, every other parameter (in particular both gibmag) is zero. -/
def pEx : Fin 2 → CorrParams :=
  fun a => if a = 0 then ⟨1, 0, 0, 0, 0⟩ else ⟨0, 1, 0, 0, 0⟩

/-- Counterexample mean angles: both bundled means are zero. -/
def mEx : Fin 2 → ℚ := fun _ => 0

/-- C4 counterexample: with both bundled means 0, phase 1 on axis 0 and
tilt 1 on axis 1 (gibmag zero on both axes, so the cosine is irrelevant),
the code corrects axis 0 to -1 and then axis 1 to 0 - 1 * (-1) = 1, while
the claimed formula, which reads the raw mean 0 of axis 0, yields 0. -/
theorem c4_counterexample :
    applyCorrections cEx pEx mEx 1 = 1 ∧ specCorrected cEx pEx mEx 1 = 0 ∧
    (pEx 0).gibmag = 0 ∧ (pEx 1).gibmag = 0 ∧
    applyCorrections cEx pEx mEx 1 ≠ specCorrected cEx pEx mEx 1 := by
  refine ⟨?h1, ?h2, rfl, rfl, ?h3⟩ <;>
    simp [applyCorrections, axisCorrect, specCorrected, cEx, pEx, mEx,
      Function.update]

/-- C4 amended: axis 0 is corrected from the axis-1 bundled mean, but axis 1
is corrected from the already-corrected axis-0 angle (the loop mutates the
angle array in place), not from the axis-0 bundled mean. -/
theorem c4_corrections_amended (c : ℚ → ℚ) (p : Fin 2 → CorrParams)
    (m : Fin 2 → ℚ) :
    applyCorrections c p m 0
      = m 0 - (p 0).phase - (p 0).tilt * m 1
        - (p 0).curve * (m 1 * m 1)
        - (p 0).gibmag * c (m 1 + (p 0).gibphase) ∧
    applyCorrections c p m 1
      = m 1 - (p 1).phase - (p 1).tilt * applyCorrections c p m 0
        - (p 1).curve * (applyCorrections c p m 0 * applyCorrections c p m 0)
        - (p 1).gibmag * c (applyCorrections c p m 0 + (p 1).gibphase) := by
  constructor <;>
    simp [applyCorrections, axisCorrect, Function.update,
      show (1 - (0 : Fin 2)) = 1 from rfl, show (1 - (1 : Fin 2)) = 0 from rfl,
      show (0 : Fin 2) ≠ 1 from by decide]

/-! Temporal bundler (Solve, lines 167-179, and Mean, lines 125-129).
The C round function rounds half away from zero; observation times are
mapped to the nearest multiple of the resolution and every pulse angle is
appended to the bin keyed by tracker, lighthouse, discretized time, sensor
and axis. -/

/-- The C round function on rationals: nearest integer, halves away from
zero. -/
def roundAway (q : ℚ) : ℤ :=
  if 0 ≤ q then ⌊q + 1/2⌋ else -⌊-q + 1/2⌋

/-- Line 174: the discretized time round(t / res) * res. -/
def discretize (res t : ℚ) : ℚ := (roundAway (t / res) : ℚ) * res

/-- Mean (lines 125-129): none on an empty vector, otherwise the left
accumulation from 0 divided by the number of samples. -/
def meanQ (v : List ℚ) : Option ℚ :=
  if v.isEmpty then none else some (v.foldl (· + ·) 0 / v.length)

/-- The sample list of one bundle bin: for every measurement matching the
tracker, the lighthouse, the axis and the discretized time, the angles of
its pulses for the given sensor, in store order (lines 170-177). -/
def bundleSamples (res : ℚ) (ms : List Meas) (tr lh : String) (t : ℚ)
    (s : ℕ) (a : ℕ) : List ℚ :=
  ms.flatMap fun m =>
    if m.light.tracker = tr ∧ m.light.lighthouse = lh ∧ m.light.axis = a ∧
       discretize res m.time = t
    then (m.light.pulses.filter (fun p => p.sensor == s)).map Pulse.angle
    else []

/-- The value of one bundle bin: the mean of its samples, none when the bin
is empty. -/
def bundleMean (res : ℚ) (ms : List Meas) (tr lh : String) (t : ℚ)
    (s : ℕ) (a : ℕ) : Option ℚ :=
  meanQ (bundleSamples res ms tr lh t s a)

/-- Round-half-away-from-zero lands within half a unit of its argument. -/
theorem roundAway_close (q : ℚ) : |q - (roundAway q : ℚ)| ≤ 1 / 2 := by
  rw [roundAway]
  rcases le_or_lt 0 q with h | h
  · rw [if_pos h]
    have h1 := Int.floor_le (q + 1/2)
    have h2 := Int.lt_floor_add_one (q + 1/2)
    rw [abs_le]
    constructor <;> [linarith; linarith]
  · rw [if_neg (not_le.mpr h)]
    have h1 := Int.floor_le (-q + 1/2)
    have h2 := Int.lt_floor_add_one (-q + 1/2)
    rw [abs_le]
    push_cast
    constructor <;> [linarith; linarith]

/-- Round-half-away-from-zero picks a nearest integer: no integer is
strictly closer. -/
theorem roundAway_nearest (q : ℚ) (k : ℤ) :
    |q - (roundAway q : ℚ)| ≤ |q - (k : ℚ)| := by
  by_cases hk : k = roundAway q
  · rw [hk]
  · have hne : roundAway q - k ≠ 0 := sub_ne_zero.mpr (Ne.symm hk)
    have h1 : (1 : ℤ) ≤ |roundAway q - k| := Int.one_le_abs hne
    have h1q : (1 : ℚ) ≤ |(roundAway q : ℚ) - (k : ℚ)| := by
      exact_mod_cast h1
    have h2 := roundAway_close q
    have h3 : |(roundAway q : ℚ) - (k : ℚ)|
        ≤ |(roundAway q : ℚ) - q| + |q - (k : ℚ)| := abs_sub_le _ _ _
    have h4 : |(roundAway q : ℚ) - q| = |q - (roundAway q : ℚ)| :=
      abs_sub_comm _ _
    linarith

/-- Left accumulation from zero equals the list sum. -/
theorem foldl_add_eq_sum (x : ℚ) (l : List ℚ) :
    l.foldl (· + ·) x = x + l.sum := by
  induction l generalizing x with
  | nil => simp
  | cons y l ih => simp [List.foldl_cons, ih, List.sum_cons]; ring

/-! Per-epoch pose bootstrapper (Solve, lines 195-281).  For each sensor
the loop requires bundled means on both axes, optionally corrects them, and
builds one correspondence; with at least four correspondences it calls the
OpenCV PnP solver.  The pinhole projection of the angles and cv::solvePnP
itself are external library code and are abstracted as the pnp parameter;
a correspondence is represented by the sensor id and its two angles. -/

/-- An EpochPose: translation plus axis-angle, as stored by lines 268-273. -/
def Pose := Fin 6 → ℚ

/-- The per-sensor step of the correspondence loop (lines 217-244): none
unless both axis means exist; otherwise the sensor id with its (optionally
corrected) pair of angles. -/
def corrEntry (cfg : Config) (c : ℚ → ℚ) (lh : Lighthouse) (ms : List Meas)
    (tr lhS : String) (t : ℚ) (s : ℕ) : Option (ℕ × ℚ × ℚ) :=
  match bundleMean cfg.res ms tr lhS t s 0,
        bundleMean cfg.res ms tr lhS t s 1 with
  | some m0, some m1 =>
      let m : Fin 2 → ℚ := ![m0, m1]
      let mc := if cfg.correct then applyCorrections c lh.params m else m
      some (s, mc 0, mc 1)
  | _, _ => none

/-- All correspondences of one (tracker, lighthouse, time-bin). -/
def correspondences (cfg : Config) (c : ℚ → ℚ) (lh : Lighthouse)
    (ms : List Meas) (tr lhS : String) (t : ℚ) (numSensors : ℕ) :
    List (ℕ × ℚ × ℚ) :=
  (List.range numSensors).filterMap (corrEntry cfg c lh ms tr lhS t)

/-- The PnP gate (lines 247-276): only with more than three correspondences
is the solver called, and only a successful solve stores a pose. -/
def epochPose (pnp : List (ℕ × ℚ × ℚ) → Option Pose)
    (corrs : List (ℕ × ℚ × ℚ)) : Option Pose :=
  if 3 < corrs.length then pnp corrs else none

/-! Solve orchestration and the global transform solver
(deepdive_calibration.cc lines 132-397).  The ceres solve is abstracted by
an oracle carrying the usability verdict of the summary and the contents
the optimizer leaves in the slave transform parameter blocks; the master
block is never added to the problem (line 295 continue) and is written by
the zeroing loop of lines 296-297, embedded exactly: the loop body writes
index 0 on every one of its six iterations (the loop variable is unused in
the source). -/

/-- Ceres solve abstraction: the summary usability flag and the final
contents of each slave lighthouse parameter block. -/
structure Oracle where
  usable : Bool
  result : String → Fin 6 → ℚ

/-- Result of the embedded Solve: return flag, post state, warning text and
whether the transform set was published and persisted. -/
structure SolveResult where
  success : Bool
  state : CalState
  warning : Option String
  published : Bool
  persisted : Bool

/-- Lines 296-297: for i in 0..5, vTl[0] = 0.  The source writes index 0
six times; components 1..5 are untouched. -/
def zeroMasterLoop (v : Fin 6 → ℚ) : Fin 6 → ℚ :=
  (List.range 6).foldl (fun w _ => Function.update w 0 0) v

/-- Solve (lines 132-397): fail with a warning and no side effect on an
empty store; otherwise run the master zeroing loop, leave the slave blocks
to the optimizer, publish and persist unconditionally, and return true
regardless of the usability of the solution (line 396). -/
def solveE (oracle : Oracle) (st : CalState) : SolveResult :=
  if st.measurements.isEmpty then
    { success := false
      state := st
      warning := some "Insufficient measurements received, so cannot solve problem."
      published := false
      persisted := false }
  else
    let lhs := match st.lighthouses with
      | [] => []
      | (s, master) :: rest =>
          (s, { master with vTl := zeroMasterLoop master.vTl }) ::
          rest.map (fun q => (q.1, { q.2 with vTl := oracle.result q.1 }))
    { success := true
      state := { st with lighthouses := lhs }
      warning := none
      published := true
      persisted := true }

/-- Trigger service response. -/
structure TrigResp where
  success : Bool
  message : String
deriving DecidableEq, Repr

/-- TriggerCallback (lines 429-450): when idle, answer success and start
recording; when recording, run Solve, answer with its result, clear the
measurement store regardless of the outcome; always toggle the recording
flag.  The response starts default-constructed (false, empty) as a ROS
service response does. -/
def triggerCallback (oracle : Oracle) (st : CalState) : TrigResp × CalState :=
  let r1 : TrigResp :=
    if st.recording = false then ⟨true, "Recording started."⟩ else ⟨false, ""⟩
  let rs : TrigResp × CalState :=
    if st.recording = true then
      let sv := solveE oracle st
      (⟨sv.success,
        if sv.success then "Recording stopped. Solution found."
        else "Recording stopped. Solution not found."⟩,
       { sv.state with measurements := [] })
    else (r1, st)
  (rs.1, { rs.2 with recording := !st.recording })

/-- TimerCallback (lines 453-457): fake a trigger on timer expiry. -/
def timerCallback (oracle : Oracle) (st : CalState) : TrigResp × CalState :=
  triggerCallback oracle st

/-! Entry guard of the raw light dispatcher (deepdive_data_light.c,
lines 401-409).  MAX_NUM_SENSORS is a constant of the missing header and is
kept as a parameter; the per-sensor arrays sweep_len and sweep_time written
by handle_sweep (lines 395-398) have exactly that many entries, so a valid
index must be strictly below it. -/

/-- The entry guard: reject sensor indices strictly above maxNumSensors and
lengths strictly above 6750, accept everything else. -/
def lightGuardAccepts (maxNumSensors sensor len : ℕ) : Bool :=
  !(sensor > maxNumSensors) && !(len > 6750)

/-- Dispatch of an accepted event (lines 405-408): lengths above 2750 go to
handle_sync, the rest to handle_sweep, which indexes the per-sensor arrays
with the sensor id. -/
def goesToSweep (len : ℕ) : Bool := !(len > 2750)

/-- The filter keeps a pulse iff neither rejection clause fires. -/
theorem keepPulse_false_iff (cfg : Config) (p : Pulse) :
    keepPulse cfg p = false ↔
      (cfg.threshAngle / (572958/10000 : ℚ) < p.angle ∨
       p.duration < cfg.threshDuration / 1000000) := by
  simp only [keepPulse, Bool.not_eq_false']
  simp [rejectPulse]

/-- C5: while recording with a known ready tracker and lighthouse, a pulse
whose angle equals the configured maximum is kept (rejection is strict on
angle and strict on low duration), and the observation is appended to the
measurement store exactly when at least threshCount pulses survive; with
threshCount - 1 survivors the state is unchanged, with threshCount
survivors the filtered observation is appended. -/
theorem c5_ingestion_filter (cfg : Config) (now : ℚ) (msg : LightMsg)
    (st : CalState) (p : Pulse)
    (hrec : st.recording = true)
    (htr : trackerReady st msg.tracker = true)
    (hlh : lighthouseReady st msg.lighthouse = true) :
    (p.angle = cfg.threshAngle / (572958/10000 : ℚ) →
      ¬ (p.duration < cfg.threshDuration / 1000000) →
      keepPulse cfg p = true) ∧
    (keepPulse cfg p = false ↔
      (cfg.threshAngle / (572958/10000 : ℚ) < p.angle ∨
       p.duration < cfg.threshDuration / 1000000)) ∧
    ((lightCallback cfg now msg st).measurements =
      if cfg.threshCount ≤ (msg.pulses.filter (keepPulse cfg)).length then
        st.measurements ++
          [⟨now, { msg with pulses := msg.pulses.filter (keepPulse cfg) }⟩]
      else st.measurements) ∧
    ((msg.pulses.filter (keepPulse cfg)).length + 1 = cfg.threshCount →
      lightCallback cfg now msg st = st) ∧
    ((msg.pulses.filter (keepPulse cfg)).length = cfg.threshCount →
      (lightCallback cfg now msg st).measurements =
        st.measurements ++
          [⟨now, { msg with pulses := msg.pulses.filter (keepPulse cfg) }⟩]) := by
  have hguard : (st.recording && trackerReady st msg.tracker &&
      lighthouseReady st msg.lighthouse) = true := by
    rw [hrec, htr, hlh]; rfl
  refine ⟨?_, keepPulse_false_iff cfg p, ?_, ?_, ?_⟩
  · intro ha hd
    rcases hkeep : keepPulse cfg p with _ | _
    · rcases (keepPulse_false_iff cfg p).mp hkeep with h | h
      · rw [ha] at h; exact absurd h (lt_irrefl _)
      · exact absurd h hd
    · rfl
  · rw [lightCallback, hguard]
    simp only [Bool.not_true, Bool.false_eq_true, if_false]
    rcases Nat.lt_or_ge (msg.pulses.filter (keepPulse cfg)).length
        cfg.threshCount with h | h
    · rw [if_pos h, if_neg (by omega)]
    · rw [if_neg (by omega), if_pos h]
  · intro hone
    rw [lightCallback, hguard]
    simp only [Bool.not_true, Bool.false_eq_true, if_false]
    rw [if_pos (by omega)]
  · intro heq
    rw [lightCallback, hguard]
    simp only [Bool.not_true, Bool.false_eq_true, if_false]
    rw [if_neg (by omega)]

/-! Concrete fixtures used by witnesses and counterexamples. -/

/-- The default configuration: count 4, angle 60, duration 1, resolution 1,
corrections off. -/
def cfg0 : Config := ⟨4, 60, 1, 1, false⟩

/-- A ready lighthouse with the zero transform and zero parameters. -/
def lhEx : Lighthouse := ⟨fun _ => 0, true, fun _ => ⟨0, 0, 0, 0, 0⟩⟩

/-- A ready tracker. -/
def trEx : Tracker := ⟨true⟩

/-- Four pulses that all survive the default thresholds. -/
def pulses0 : List Pulse :=
  [⟨0, 1/10, 1/100000⟩, ⟨1, 1/10, 1/100000⟩,
   ⟨2, 1/10, 1/100000⟩, ⟨3, 1/10, 1/100000⟩]

/-- A light observation from tracker T and lighthouse L on axis 0. -/
def msg0 : LightMsg := ⟨"T", "L", 0, pulses0⟩

/-- A recording state with one ready tracker and one ready lighthouse and an
empty store. -/
def st0 : CalState := ⟨[], [("L", lhEx)], [("T", trEx)], true⟩

/-- All four default pulses survive the default thresholds. -/
theorem pulses0_all_kept : msg0.pulses.filter (keepPulse cfg0) = pulses0 := by
  simp only [msg0, pulses0, List.filter, keepPulse, rejectPulse, cfg0]
  norm_num

/-- C5 witness: at the default thresholds, an observation with exactly four
surviving pulses is appended to the store. -/
theorem c5_witness :
    (lightCallback cfg0 0 msg0 st0).measurements =
      st0.measurements ++
        [⟨0, { msg0 with pulses := msg0.pulses.filter (keepPulse cfg0) }⟩] :=
  (c5_ingestion_filter cfg0 0 msg0 st0 ⟨0, 0, 0⟩ rfl rfl rfl).2.2.2.2
    (by rw [pulses0_all_kept]; rfl)

/-- Scaling a nearest-integer distance by a positive resolution. -/
theorem abs_sub_int_mul (res u : ℚ) (hres : 0 < res) (j : ℤ) :
    |u - (j : ℚ) * res| = res * |u / res - (j : ℚ)| := by
  have hne : res ≠ 0 := ne_of_gt hres
  have h : u - (j : ℚ) * res = res * (u / res - (j : ℚ)) := by
    field_simp
    ring
  rw [h, abs_mul, abs_of_pos hres]

/-- C6: for a positive resolution, the bundler bin time is the nearest
multiple of the resolution (within half a resolution, and no other multiple
is closer), an empty bin yields no mean (and hence no synthetic zero), and
a populated bin's mean times its sample count equals the sample sum, i.e.
the value is the arithmetic mean of exactly the angles in the bin. -/
theorem c6_bundler (res u : ℚ) (hres : 0 < res) (k : ℤ) (ms : List Meas)
    (tr lh : String) (t : ℚ) (s a : ℕ) (d : ℚ) :
    |u - discretize res u| ≤ res / 2 ∧
    |u - discretize res u| ≤ |u - (k : ℚ) * res| ∧
    (∃ j : ℤ, discretize res u = (j : ℚ) * res) ∧
    (bundleMean res ms tr lh t s a = none ↔
      bundleSamples res ms tr lh t s a = []) ∧
    (bundleMean res ms tr lh t s a = some d →
      bundleSamples res ms tr lh t s a ≠ [] ∧
      d * ((bundleSamples res ms tr lh t s a).length : ℚ) =
        (bundleSamples res ms tr lh t s a).sum) := by
  refine ⟨?_, ?_, ⟨roundAway (u / res), rfl⟩, ?_, ?_⟩
  · rw [discretize, abs_sub_int_mul res u hres]
    have h := mul_le_mul_of_nonneg_left (roundAway_close (u / res)) hres.le
    linarith
  · rw [discretize, abs_sub_int_mul res u hres, abs_sub_int_mul res u hres]
    exact mul_le_mul_of_nonneg_left (roundAway_nearest (u / res) k) hres.le
  · cases hl : bundleSamples res ms tr lh t s a with
    | nil => simp [bundleMean, meanQ, hl]
    | cons x xs => simp [bundleMean, meanQ, hl]
  · intro hd
    cases hl : bundleSamples res ms tr lh t s a with
    | nil => rw [bundleMean, meanQ, hl] at hd; simp at hd
    | cons x xs =>
        rw [bundleMean, meanQ, hl] at hd
        simp only [List.isEmpty_cons, if_false, Bool.false_eq_true,
          Option.some_inj] at hd
        have hlen : (((x :: xs).length : ℕ) : ℚ) ≠ 0 :=
          Nat.cast_ne_zero.mpr (by simp)
        refine ⟨by simp, ?_⟩
        rw [← hd, div_mul_cancel₀ _ hlen, foldl_add_eq_sum, zero_add]

/-- A single-measurement store: tracker T, lighthouse L, axis 0, time 0,
one pulse on sensor 5 with angle 2. -/
def msEx : List Meas := [⟨0, ⟨"T", "L", 0, [⟨5, 2, 1⟩]⟩⟩]

/-- At resolution 1 the time-0 bin of (T, L, sensor 5, axis 0) holds the
single angle 2 and its bundled mean is 2. -/
theorem msEx_mean : bundleMean 1 msEx "T" "L" 0 5 0 = some 2 := by
  have hdisc : discretize 1 0 = 0 := by
    rw [discretize, roundAway]
    norm_num
  simp [bundleMean, bundleSamples, meanQ, msEx, hdisc, List.filter]

/-- C6 witness: on the concrete single-measurement store, applying the
bundler theorem shows the populated bin is nonempty and its mean 2 satisfies
mean times count = sum. -/
theorem c6_witness :
    bundleSamples 1 msEx "T" "L" 0 5 0 ≠ [] ∧
    (2 : ℚ) * ((bundleSamples 1 msEx "T" "L" 0 5 0).length : ℚ) =
      (bundleSamples 1 msEx "T" "L" 0 5 0).sum :=
  (c6_bundler 1 0 one_pos 0 msEx "T" "L" 0 5 0 2).2.2.2.2 msEx_mean

/-- A produced correspondence entry names its sensor and certifies that
both axis means exist. -/
theorem corrEntry_some (cfg : Config) (c : ℚ → ℚ) (lh : Lighthouse)
    (ms : List Meas) (tr lhS : String) (t : ℚ) (s : ℕ) (e : ℕ × ℚ × ℚ)
    (h : corrEntry cfg c lh ms tr lhS t s = some e) :
    e.1 = s ∧ (bundleMean cfg.res ms tr lhS t s 0).isSome = true ∧
    (bundleMean cfg.res ms tr lhS t s 1).isSome = true := by
  rw [corrEntry] at h
  rcases h0 : bundleMean cfg.res ms tr lhS t s 0 with _ | m0 <;>
    rcases h1 : bundleMean cfg.res ms tr lhS t s 1 with _ | m1 <;>
    rw [h0, h1] at h <;> simp at h
  exact ⟨by rw [← h], rfl, rfl⟩

/-- Both axis means existing is enough for a correspondence entry. -/
theorem corrEntry_isSome (cfg : Config) (c : ℚ → ℚ) (lh : Lighthouse)
    (ms : List Meas) (tr lhS : String) (t : ℚ) (s : ℕ)
    (h0 : (bundleMean cfg.res ms tr lhS t s 0).isSome = true)
    (h1 : (bundleMean cfg.res ms tr lhS t s 1).isSome = true) :
    (corrEntry cfg c lh ms tr lhS t s).isSome = true := by
  rcases Option.isSome_iff_exists.mp h0 with ⟨m0, hm0⟩
  rcases Option.isSome_iff_exists.mp h1 with ⟨m1, hm1⟩
  rw [corrEntry, hm0, hm1]
  rfl

/-- C7: an EpochPose for a bin exists only when the gate saw at least four
correspondences and the PnP solver returned one; exactly three
correspondences yield no pose, a PnP failure yields no pose and no error,
and a sensor contributes a correspondence exactly when it is in range and
both its axis means exist. -/
theorem c7_pnp_gate (pnp : List (ℕ × ℚ × ℚ) → Option Pose) (cfg : Config)
    (c : ℚ → ℚ) (lh : Lighthouse) (ms : List Meas) (tr lhS : String)
    (t : ℚ) (N s : ℕ) (p : Pose) :
    (epochPose pnp (correspondences cfg c lh ms tr lhS t N) = some p →
      4 ≤ (correspondences cfg c lh ms tr lhS t N).length ∧
      pnp (correspondences cfg c lh ms tr lhS t N) = some p) ∧
    ((correspondences cfg c lh ms tr lhS t N).length = 3 →
      epochPose pnp (correspondences cfg c lh ms tr lhS t N) = none) ∧
    (pnp (correspondences cfg c lh ms tr lhS t N) = none →
      epochPose pnp (correspondences cfg c lh ms tr lhS t N) = none) ∧
    ((∃ e ∈ correspondences cfg c lh ms tr lhS t N, e.1 = s) ↔
      (s < N ∧ (bundleMean cfg.res ms tr lhS t s 0).isSome = true ∧
       (bundleMean cfg.res ms tr lhS t s 1).isSome = true)) := by
  refine ⟨?_, ?_, ?_, ?_⟩
  · intro h
    rw [epochPose] at h
    by_cases hlen : 3 < (correspondences cfg c lh ms tr lhS t N).length
    · rw [if_pos hlen] at h
      exact ⟨by omega, h⟩
    · rw [if_neg hlen] at h
      exact absurd h (by simp)
  · intro h3
    rw [epochPose, if_neg (by omega)]
  · intro hn
    rw [epochPose]
    split_ifs with h
    · exact hn
    · rfl
  · constructor
    · rintro ⟨e, he, hfst⟩
      rcases List.mem_filterMap.mp he with ⟨u, hu, hent⟩
      rcases corrEntry_some cfg c lh ms tr lhS t u e hent with ⟨h1, h2, h3⟩
      have hus : u = s := by rw [← hfst, h1]
      subst hus
      exact ⟨List.mem_range.mp hu, h2, h3⟩
    · rintro ⟨hsN, h0, h1⟩
      rcases Option.isSome_iff_exists.mp
        (corrEntry_isSome cfg c lh ms tr lhS t s h0 h1) with ⟨e, he⟩
      refine ⟨e, List.mem_filterMap.mpr ⟨s, List.mem_range.mpr hsN, he⟩, ?_⟩
      exact (corrEntry_some cfg c lh ms tr lhS t s e he).1

/-- At resolution 1 the time origin is its own bin. -/
theorem discretize_one_zero : discretize 1 0 = 0 := by
  rw [discretize, roundAway]
  norm_num

/-- One observation per axis from tracker T and lighthouse L at time 0,
carrying the four sensors 0..3 each with angle 1 and duration 1. -/
def obsFor (a : ℕ) : Meas :=
  ⟨0, ⟨"T", "L", a, [⟨0, 1, 1⟩, ⟨1, 1, 1⟩, ⟨2, 1, 1⟩, ⟨3, 1, 1⟩]⟩⟩

/-- A store holding both axes of the four-sensor observation. -/
def msC7 : List Meas := [obsFor 0, obsFor 1]

/-- A PnP stub that always reports the zero pose. -/
def pnp0 : List (ℕ × ℚ × ℚ) → Option Pose := fun _ => some (fun _ => 0)

/-- The zero pose. -/
def poseZero : Pose := fun _ => 0

/-- On the concrete store all four sensors produce correspondences with both
mean angles equal to 1. -/
theorem msC7_corrs :
    correspondences cfg0 cEx lhEx msC7 "T" "L" 0 4 =
      [(0, 1, 1), (1, 1, 1), (2, 1, 1), (3, 1, 1)] := by
  have hd := discretize_one_zero
  simp [correspondences, corrEntry, bundleMean, bundleSamples, meanQ,
    msC7, obsFor, hd, cfg0, List.filter, List.range_succ]

/-- C7 witness: with four correspondences the gate passes and the pose
returned by the PnP solver is produced. -/
theorem c7_witness :
    4 ≤ (correspondences cfg0 cEx lhEx msC7 "T" "L" 0 4).length ∧
    pnp0 (correspondences cfg0 cEx lhEx msC7 "T" "L" 0 4) = some poseZero :=
  (c7_pnp_gate pnp0 cfg0 cEx lhEx msC7 "T" "L" 0 4 0 poseZero).1
    (by rw [epochPose, if_pos (by rw [msC7_corrs]; simp)]; rfl)

/-- C8: on an empty measurement store, Solve fails immediately with the
insufficient-measurements warning and has no side effects: the state is
returned unchanged and nothing is published or persisted. -/
theorem c8_empty_store (oracle : Oracle) (st : CalState)
    (h : st.measurements = []) :
    solveE oracle st =
      { success := false
        state := st
        warning :=
          some "Insufficient measurements received, so cannot solve problem."
        published := false
        persisted := false } := by
  rw [solveE, h]
  rfl

/-- An idle state with an empty store. -/
def stEmpty : CalState := ⟨[], [("L", lhEx)], [("T", trEx)], false⟩

/-- A ceres oracle reporting a usable solution and zero slave blocks. -/
def oracle0 : Oracle := ⟨true, fun _ _ => 0⟩

/-- A ceres oracle reporting an unusable solution. -/
def oracleBad : Oracle := ⟨false, fun _ _ => 0⟩

/-- C8 witness: the empty-store Solve evaluated on a concrete state. -/
theorem c8_witness :
    solveE oracle0 stEmpty =
      { success := false
        state := stEmpty
        warning :=
          some "Insufficient measurements received, so cannot solve problem."
        published := false
        persisted := false } :=
  c8_empty_store oracle0 stEmpty rfl

/-- A master lighthouse whose configured transform is (7,8,9,1,2,3). -/
def lhMaster : Lighthouse := ⟨![7, 8, 9, 1, 2, 3], true, fun _ => ⟨0, 0, 0, 0, 0⟩⟩

/-- A recording state with a non-empty store, master lighthouse A with a
non-zero initial transform, and slave lighthouse B. -/
def stC1 : CalState :=
  ⟨[obsFor 0], [("A", lhMaster), ("B", lhEx)], [("T", trEx)], true⟩

/-- C1: evaluating Solve at a master lighthouse whose transform starts at
(7,8,9,1,2,3) shows the zeroing loop of lines 296-297 clears only component
0 (the source writes index 0 on all six iterations), so after a completed
solve the master transform is (0,8,9,1,2,3), not the zero vector the claim
and the spec require. -/
theorem c1_master_transform_not_zeroed :
    (solveE oracle0 stC1).success = true ∧
    ((solveE oracle0 stC1).state.lighthouses.head?.map
      (fun q => q.2.vTl 0)) = some 0 ∧
    ((solveE oracle0 stC1).state.lighthouses.head?.map
      (fun q => q.2.vTl 1)) = some 8 ∧
    (8 : ℚ) ≠ 0 := by
  refine ⟨rfl, ?_, ?_, by norm_num⟩ <;>
    simp [solveE, stC1, lhMaster, zeroMasterLoop, List.range_succ,
      Function.update]

/-- C2 counterexample: on a concrete non-empty store with the solver
reporting an unusable solution, Solve still returns success, contradicting
the claimed equivalence between the Solve result and solver usability. -/
theorem c2_counterexample :
    oracleBad.usable = false ∧ (solveE oracleBad stC1).success = true ∧
    stC1.measurements ≠ [] := by
  refine ⟨rfl, rfl, by simp [stC1]⟩

/-- C2 amended: Solve returns success exactly when the measurement store is
non-empty, independent of the solver's usability verdict (which only
affects logging), and the trigger response's success flag equals this Solve
result. -/
theorem c2_solve_success_amended (oracle : Oracle) (st : CalState)
    (hrec : st.recording = true) :
    ((solveE oracle st).success = true ↔ st.measurements ≠ []) ∧
    (triggerCallback oracle st).1.success = (solveE oracle st).success := by
  constructor
  · cases hm : st.measurements with
    | nil => simp [solveE, hm]
    | cons x xs => simp [solveE, hm]
  · simp [triggerCallback, hrec]

/-- C2 witness: the amended statement evaluated at the concrete recording
state with the unusable-solution oracle. -/
theorem c2_witness :
    ((solveE oracleBad stC1).success = true ↔ stC1.measurements ≠ []) ∧
    (triggerCallback oracleBad stC1).1.success =
      (solveE oracleBad stC1).success :=
  c2_solve_success_amended oracleBad stC1 rfl

/-- C9: every trigger toggles the recording flag exactly once; a trigger
during recording runs Solve synchronously, answers with its result and
message, and clears the measurement store regardless of the solve outcome;
a trigger while idle leaves the store and the lighthouses untouched and
answers success; the inactivity timer fires the identical trigger path. -/
theorem c9_trigger_toggle (oracle : Oracle) (st : CalState) :
    ((triggerCallback oracle st).2.recording = !st.recording) ∧
    ((triggerCallback oracle st).2 =
      if st.recording = true then
        { (solveE oracle st).state with measurements := [], recording := false }
      else { st with recording := true }) ∧
    ((triggerCallback oracle st).1 =
      if st.recording = true then
        ⟨(solveE oracle st).success,
          if (solveE oracle st).success
          then "Recording stopped. Solution found."
          else "Recording stopped. Solution not found."⟩
      else ⟨true, "Recording started."⟩) ∧
    (timerCallback oracle st = triggerCallback oracle st) := by
  refine ⟨?_, ?_, ?_, rfl⟩ <;>
    cases hrec : st.recording <;>
      simp [triggerCallback, hrec]

/-- C10: the entry guard of the raw light dispatcher accepts a sweep event
whose sensor index equals MAX_NUM_SENSORS (here instantiated at 32) because
the rejection comparison is strict, yet that index is not a valid index of
the MAX_NUM_SENSORS-sized per-sensor arrays handle_sweep writes; only
indices strictly above the bound are rejected. -/
theorem c10_guard_off_by_one :
    lightGuardAccepts 32 32 1000 = true ∧ goesToSweep 1000 = true ∧
    ¬ (32 < 32) ∧ lightGuardAccepts 32 33 1000 = false := by
  decide

end Deepdive
